import Mathlib

/-!
Verification development for the bookmark-manager repository
(src/bookmark-manager-supabase.jsx and src/supabaseService.js).

The JavaScript handlers are embedded as pure Lean functions.  Remote calls
through the Supabase client are external I/O; each handler therefore takes the
outcome of its remote calls as explicit `Except String _` parameters (the
string is the error message the thrown error would carry) and additionally
returns the list of remote calls it issued, so that theorems can speak about
which requests were (or were not) sent.  Browser dialogs (`confirm`) are
boolean parameters and the random token of `generateShareId` is a string
parameter.  JavaScript string primitives used by the code (`trim`,
`toLowerCase`, `includes`, `startsWith`, first-occurrence `replace`) are
modelled over `List Char`; the inputs appearing in this development are ASCII,
where these models agree with JavaScript.
-/

/-! ## JavaScript string primitives -/

/-- Model of `q` being a prefix of `s` on character lists. -/
def startsWithSeq : List Char → List Char → Bool
  | [], _ => true
  | _ :: _, [] => false
  | a :: q, b :: s => a == b && startsWithSeq q s

/-- Model of `q` occurring as a contiguous subsequence of `s`. -/
def hasSeq (q : List Char) : List Char → Bool
  | [] => startsWithSeq q []
  | s@(_ :: t) => startsWithSeq q s || hasSeq q t

/-- Model of JavaScript `s.startsWith(p)`. -/
def jsStartsWith (s p : String) : Bool :=
  startsWithSeq p.data s.data

/-- Model of JavaScript `s.includes(q)`. -/
def jsIncludes (s q : String) : Bool :=
  hasSeq q.data s.data

/-- Model of JavaScript `s.toLowerCase()` (ASCII fragment). -/
def jsToLower (s : String) : String :=
  String.mk (s.data.map Char.toLower)

/-- Model of JavaScript `s.trim()` (ASCII whitespace fragment). -/
def jsTrim (s : String) : String :=
  String.mk (((s.data.dropWhile Char.isWhitespace).reverse.dropWhile
    Char.isWhitespace).reverse)

/-- Model of JavaScript `s.replace(pat, rep)` with a string pattern:
only the first occurrence is replaced. -/
def replaceFirstSeq (pat rep : List Char) : List Char → List Char
  | [] => []
  | c :: t =>
    if startsWithSeq pat (c :: t) then rep ++ (c :: t).drop pat.length
    else c :: replaceFirstSeq pat rep t

/-- Model of JavaScript `s.replace(pat, rep)` on strings. -/
def jsReplaceFirst (s pat rep : String) : String :=
  String.mk (replaceFirstSeq pat.data rep.data s.data)

/-- Model of JavaScript `s.split(sep)[0]`: the segment before the first
occurrence of the separator character. -/
def firstSegBefore (sep : Char) (s : String) : String :=
  String.mk (s.data.takeWhile (fun c => !(c == sep)))

/-- Model of `s.charAt(0).toUpperCase() + s.slice(1)`. -/
def capitalizeJs (s : String) : String :=
  match s.data with
  | [] => ""
  | c :: t => String.mk (c.toUpper :: t)

/-! ## Model of the platform URL constructor

The source calls the browser's WHATWG `new URL(input)` constructor with no
base URL.  That constructor is a platform API, not repository code; it is
modelled here restricted to the fragment the repository exercises:

* an absolute URL must begin with a scheme — an ASCII letter followed by
  letters, digits, `+`, `-` or `.` and then a colon; an input without such a
  scheme (in particular any input without a colon) fails to parse;
* for the special schemes `http`, `https`, `ws`, `wss`, `ftp` the colon must
  be followed by `//` and a nonempty host free of whitespace, `@`, `[`, `]`,
  read up to the first `/`, `?` or `#`; the serialized `href` lowercases the
  scheme and host and appends `/` when the path part is empty;
* any other scheme parses opaquely, keeping the remainder verbatim.

Inputs whose real parse differs from this fragment (missing-slash recovery
for special schemes, userinfo, ports, percent-encoding, non-ASCII hosts) do
not occur anywhere in this development. -/

/-- Parsed-URL record exposing the fields the source reads
(`protocol`, `hostname` via `host`, `href`). -/
structure JsUrl where
  protocol : String
  host : String
  href : String
deriving Repr, DecidableEq

/-- First character of a URL scheme. -/
def isSchemeStartChar (c : Char) : Bool := c.isAlpha

/-- Subsequent characters of a URL scheme. -/
def isSchemeChar (c : Char) : Bool :=
  c.isAlpha || c.isDigit || c == '+' || c == '-' || c == '.'

/-- Scan for the colon ending a scheme, accumulating scheme characters. -/
def schemeSplitGo (acc : List Char) : List Char → Option (List Char × List Char)
  | [] => none
  | c :: cs =>
    if c == ':' then some (acc.reverse, cs)
    else if isSchemeChar c then schemeSplitGo (c :: acc) cs
    else none

/-- Split an input into scheme characters and the remainder after the colon;
fails when the input does not begin with a well-formed scheme. -/
def schemeSplit : List Char → Option (List Char × List Char)
  | [] => none
  | c :: cs => if isSchemeStartChar c then schemeSplitGo [c] cs else none

/-- Schemes the WHATWG parser treats as special (host-bearing). -/
def isSpecialScheme (s : String) : Bool :=
  s == "http" || s == "https" || s == "ws" || s == "wss" || s == "ftp"

/-- Characters that make a host invalid in this model. -/
def badHostChar (c : Char) : Bool :=
  c == ' ' || c == '\t' || c == '\n' || c == '\r' || c == '@' || c == '[' || c == ']'

/-- Model of `new URL(input)` (no base URL); `none` models the thrown
`TypeError`. -/
def newURL (input : String) : Option JsUrl :=
  match schemeSplit input.data with
  | none => none
  | some (schemeCs, rest) =>
    let scheme := String.mk (schemeCs.map Char.toLower)
    if isSpecialScheme scheme then
      match rest with
      | '/' :: '/' :: r =>
        let hostCs := r.takeWhile (fun c => !(c == '/' || c == '?' || c == '#'))
        let tail := r.drop hostCs.length
        if hostCs.isEmpty || hostCs.any badHostChar then none
        else
          let host := String.mk (hostCs.map Char.toLower)
          let path := if tail.isEmpty then "/" else String.mk tail
          some { protocol := scheme ++ ":", host := host
               , href := scheme ++ "://" ++ host ++ path }
      | _ => none
    else
      some { protocol := scheme ++ ":", host := ""
           , href := scheme ++ ":" ++ String.mk rest }

/-! ## URL utilities of src/supabaseService.js -/

/-- Embedding of `isValidUrl` (src/supabaseService.js lines 205-212): prefix
`https://` when the input does not literally start with `http`, parse, and
check the protocol. -/
def isValidUrl (urlString : String) : Bool :=
  match newURL (if jsStartsWith urlString "http" then urlString
                else "https://" ++ urlString) with
  | some url => url.protocol == "http:" || url.protocol == "https:"
  | none => false

/-- Embedding of `normalizeUrl` (src/supabaseService.js lines 214-221):
same prefix rule, returning the serialized `href`, `none` on parse failure. -/
def normalizeUrl (urlString : String) : Option String :=
  match newURL (if jsStartsWith urlString "http" then urlString
                else "https://" ++ urlString) with
  | some url => some url.href
  | none => none

/-- Metadata record returned by `fetchUrlMetadata`. -/
structure UrlMeta where
  title : String
  description : String
  thumbnail : String
  domain : String
deriving Repr, DecidableEq

/-- Embedding of `fetchUrlMetadata` (src/supabaseService.js lines 223-242);
the function catches its own parse failure and returns defaults, so it is
total. -/
def fetchUrlMetadata (url : String) : UrlMeta :=
  match newURL url with
  | some u =>
    let domain := jsReplaceFirst u.host "www." ""
    { title := capitalizeJs (firstSegBefore '.' domain)
    , description := "Visit " ++ domain ++ " for more information"
    , thumbnail := "https://www.google.com/s2/favicons?domain=" ++ domain ++ "&sz=128"
    , domain := domain }
  | none =>
    { title := "Untitled", description := "", thumbnail := "", domain := "" }

/-! ## Data model

Rows of the `folders` and `bookmarks` relations as the client sees them.
Ids are opaque; they are modelled as naturals.  Nullable columns are
`Option`s.  Timestamp columns are never read by the handlers under study and
are omitted. -/

/-- A row of the `folders` relation. -/
structure Folder where
  id : Nat
  user_id : Nat
  name : String
  is_default : Bool
deriving Repr, DecidableEq

/-- A row of the `bookmarks` relation. -/
structure Bookmark where
  id : Nat
  user_id : Nat
  url : String
  title : String
  description : Option String
  thumbnail : String
  tags : List String
  folder_id : Option Nat
  is_private : Bool
  share_id : Option String
deriving Repr, DecidableEq

/-- Partial-field update object passed to `bookmarksService.update`;
`none` means the field is absent from the update. -/
structure BookmarkPatch where
  title : Option String := none
  description : Option String := none
  tags : Option (List String) := none
  folder_id : Option (Option Nat) := none
  is_private : Option Bool := none
  share_id : Option (Option String) := none
deriving Repr, DecidableEq

/-- Payload passed to `bookmarksService.create` in `handleAddBookmark`. -/
structure BookmarkCreate where
  user_id : Nat
  url : String
  title : String
  description : String
  thumbnail : String
  tags : List String
  folder_id : Option Nat
  is_private : Bool
deriving Repr, DecidableEq

/-- The `selectedFolder` React state: the string sentinel `'all'` or a
folder id. -/
inductive SelectedFolder where
  | all
  | folder (id : Nat)
deriving Repr, DecidableEq

/-- Remote requests a handler can issue through the service layer. -/
inductive RemoteCall where
  | updateBookmark (id : Nat) (patch : BookmarkPatch)
  | createBookmark (payload : BookmarkCreate)
  | deleteFolderCall (id : Nat)
  | checkDuplicate (userId : Nat) (url : String)
deriving Repr, DecidableEq

/-- Recognizer for create requests in a call trace. -/
def isCreateCall : RemoteCall → Bool
  | RemoteCall.createBookmark _ => true
  | _ => false

/-- The component state (Local Mirror plus the UI fields the studied
handlers write): `bookmarks`, `folders`, `shareModal`, `urlError`,
`urlInput`, `showAddModal`, `selectedFolder`, and the signed-in user's id. -/
structure AppState where
  bookmarks : List Bookmark
  folders : List Folder
  shareModal : Option Bookmark
  urlError : String
  urlInput : String
  showAddModal : Bool
  selectedFolder : SelectedFolder
  currentUserId : Nat
deriving Repr, DecidableEq

/-- JavaScript falsiness of a nullable string, as tested by
`if (!bookmark.share_id)`: null/undefined and the empty string are falsy. -/
def isFalsyStr : Option String → Bool
  | none => true
  | some s => s.isEmpty

/-! ## Handlers of src/bookmark-manager-supabase.jsx -/

/-- Embedding of `handleUpdateBookmark` (lines 247-255): issue the update;
on success replace the matching mirror entry with the server-returned row;
on failure the catch block only alerts, leaving the state unchanged.
Returns the new state and the issued remote calls. -/
def handleUpdateBookmark (st : AppState) (bookmarkId : Nat)
    (patch : BookmarkPatch) (remote : Except String Bookmark) :
    AppState × List RemoteCall :=
  match remote with
  | Except.ok updatedBookmark =>
    let newList := st.bookmarks.map
      (fun b => if b.id == bookmarkId then updatedBookmark else b)
    ({ st with bookmarks := newList },
     [RemoteCall.updateBookmark bookmarkId patch])
  | Except.error _ =>
    (st, [RemoteCall.updateBookmark bookmarkId patch])

/-- The update object `{ share_id: shareId }` sent by `handleShareBookmark`. -/
def sharePatch (shareId : String) : BookmarkPatch :=
  { share_id := some (some shareId) }

/-- Embedding of `handleShareBookmark` (lines 262-270): when the bookmark has
no `share_id`, generate a token (here the parameter `newShareId`), persist it
through `handleUpdateBookmark` (whose failure is swallowed there), and set the
share modal to the bookmark with the new token; otherwise just open the modal
on the existing bookmark. -/
def handleShareBookmark (st : AppState) (bookmark : Bookmark)
    (newShareId : String) (remote : Except String Bookmark) :
    AppState × List RemoteCall :=
  if isFalsyStr bookmark.share_id then
    let r := handleUpdateBookmark st bookmark.id (sharePatch newShareId) remote
    ({ r.1 with shareModal := some { bookmark with share_id := some newShareId } },
     r.2)
  else
    ({ st with shareModal := some bookmark }, [])

/-- Embedding of `handleAddBookmark` (lines 177-233).  Oracles: `dupResult`
is the outcome of `bookmarksService.checkDuplicate` (an error there is caught
and the handler continues), `createResult` the outcome of
`bookmarksService.create`.  The store's constraint rejection is recognized by
`error.message?.includes('duplicate')`. -/
def handleAddBookmark (st : AppState) (dupResult : Except String Bool)
    (createResult : Except String Bookmark) : AppState × List RemoteCall :=
  let st0 := { st with urlError := "" }
  if (jsTrim st0.urlInput).isEmpty then
    ({ st0 with urlError := "Please enter a URL" }, [])
  else if !(isValidUrl st0.urlInput) then
    ({ st0 with urlError := "Please enter a valid URL (must start with http:// or https://)" }, [])
  else
    match normalizeUrl st0.urlInput with
    | none =>
      -- unreachable when `isValidUrl` holds; see `normalizeUrl_isSome_of_valid`
      (st0, [])
    | some normalizedUrl =>
      let calls0 := [RemoteCall.checkDuplicate st0.currentUserId normalizedUrl]
      match dupResult with
      | Except.ok true =>
        ({ st0 with urlError := "This bookmark already exists" }, calls0)
      | _ =>
        let metadata := fetchUrlMetadata normalizedUrl
        let payload : BookmarkCreate :=
          { user_id := st0.currentUserId
          , url := normalizedUrl
          , title := metadata.title
          , description := metadata.description
          , thumbnail := metadata.thumbnail
          , tags := []
          , folder_id := (match st0.selectedFolder with
              | SelectedFolder.all => none
              | SelectedFolder.folder fid => some fid)
          , is_private := false }
        let calls := calls0 ++ [RemoteCall.createBookmark payload]
        match createResult with
        | Except.ok newBookmark =>
          ({ st0 with
               bookmarks := (newBookmark :: st0.bookmarks),
               urlInput := "",
               showAddModal := false }, calls)
        | Except.error msg =>
          if jsIncludes msg "duplicate" then
            ({ st0 with urlError := "This bookmark already exists" }, calls)
          else
            ({ st0 with urlError := "Failed to add bookmark. Please try again." }, calls)

/-- The `for ... of` loop in `handleDeleteFolder` that moves each bookmark of
the deleted folder to `folder_id: null`; an error from the service aborts the
loop (the surrounding try/catch).  Returns whether the loop ran to completion
and the update calls issued. -/
def runUpdates (oracle : Nat → Except String Bookmark) :
    List Bookmark → Bool × List RemoteCall
  | [] => (true, [])
  | b :: rest =>
    let call := RemoteCall.updateBookmark b.id { folder_id := some none }
    match oracle b.id with
    | Except.error _ => (false, [call])
    | Except.ok _ =>
      let r := runUpdates oracle rest
      (r.1, call :: r.2)

/-- Embedding of `handleDeleteFolder` (lines 296-321).  `confirmDelete` is the
`confirm(...)` dialog; `updateResult` gives per-bookmark outcomes of the
re-filing updates (their returned rows are discarded by the source);
`deleteResult` the outcome of `foldersService.delete`.  On any remote failure
the catch block only alerts, leaving the state unchanged. -/
def handleDeleteFolder (st : AppState) (folderId : Nat) (confirmDelete : Bool)
    (updateResult : Nat → Except String Bookmark)
    (deleteResult : Except String Unit) : AppState × List RemoteCall :=
  let folderFound := st.folders.find? (fun f => f.id == folderId)
  if (match folderFound with
      | some f => f.is_default
      | none => false) then
    (st, [])
  else if !confirmDelete then
    (st, [])
  else
    let bookmarksInFolder := st.bookmarks.filter (fun b => b.folder_id == some folderId)
    let loop := runUpdates updateResult bookmarksInFolder
    if !loop.1 then
      (st, loop.2)
    else
      match deleteResult with
      | Except.error _ => (st, loop.2 ++ [RemoteCall.deleteFolderCall folderId])
      | Except.ok _ =>
        let st1 :=
          { st with
            folders := st.folders.filter (fun f => f.id != folderId)
          , bookmarks := st.bookmarks.map (fun b =>
              if b.folder_id == some folderId then { b with folder_id := none } else b) }
        let st2 :=
          if st.selectedFolder = SelectedFolder.folder folderId then
            { st1 with selectedFolder := SelectedFolder.all }
          else st1
        (st2, loop.2 ++ [RemoteCall.deleteFolderCall folderId])

/-- Embedding of `loadUserData` (lines 88-116).  Oracles: `foldersResult` for
`foldersService.getAll`, `createDefaultResult` for the default-folder
creation taken when no folder exists yet, `bookmarksResult` for
`bookmarksService.getAll`.  The second component records whether the catch
block fired (the "Error loading your data. Please refresh the page." alert,
i.e. the recoverable load error). -/
def loadUserData (st : AppState) (foldersResult : Except String (List Folder))
    (createDefaultResult : Except String Folder)
    (bookmarksResult : Except String (List Bookmark)) : AppState × Bool :=
  match foldersResult with
  | Except.error _ => (st, true)
  | Except.ok foldersData =>
    if foldersData.isEmpty then
      match createDefaultResult with
      | Except.error _ => (st, true)
      | Except.ok defaultFolder =>
        match bookmarksResult with
        | Except.error _ => ({ st with folders := [defaultFolder] }, true)
        | Except.ok bookmarksData =>
          ({ st with folders := [defaultFolder], bookmarks := bookmarksData }, false)
    else
      match bookmarksResult with
      | Except.error _ => ({ st with folders := foldersData }, true)
      | Except.ok bookmarksData =>
        ({ st with folders := foldersData, bookmarks := bookmarksData }, false)

/-- The search predicate of `filteredBookmarks` (lines 362-369): the
(already lowercased) query must occur in the lowercased title, description
(when present), url, or some lowercased tag. -/
def matchesQuery (query : String) (b : Bookmark) : Bool :=
  jsIncludes (jsToLower b.title) query ||
  (match b.description with
   | some d => jsIncludes (jsToLower d) query
   | none => false) ||
  jsIncludes (jsToLower b.url) query ||
  b.tags.any (fun tag => jsIncludes (jsToLower tag) query)

/-- Embedding of the `filteredBookmarks` memo (lines 349-373): skip folder
filtering when the selection is the `'all'` sentinel or a folder marked
default; then apply the text filter when the query is not whitespace-only. -/
def filteredBookmarks (bookmarks : List Bookmark) (folders : List Folder)
    (selectedFolder : SelectedFolder) (filterQuery : String) : List Bookmark :=
  let selectedFolderObj : Option Folder :=
    match selectedFolder with
    | SelectedFolder.all => none
    | SelectedFolder.folder fid => folders.find? (fun f => f.id == fid)
  let isAllBookmarksFolder :=
    (match selectedFolderObj with
     | some f => f.is_default
     | none => false) || (selectedFolder = SelectedFolder.all)
  let step1 :=
    if !isAllBookmarksFolder then
      bookmarks.filter (fun b =>
        match selectedFolder with
        | SelectedFolder.all => false
        | SelectedFolder.folder fid => b.folder_id == some fid)
    else bookmarks
  if !(jsTrim filterQuery).isEmpty then
    step1.filter (matchesQuery (jsToLower filterQuery))
  else step1

/-! ## Sample data

Concrete rows and states used by counterexamples and witnesses. -/

/-- Sample bookmark mirroring the spec example `{title:"GitHub", tags:["dev"]}`. -/
def ghBookmark : Bookmark :=
  { id := 1, user_id := 7, url := "https://github.com/", title := "GitHub"
  , description := none, thumbnail := "", tags := ["dev"], folder_id := none
  , is_private := false, share_id := none }

/-- Sample bookmark mirroring the spec example `{title:"Example", tags:[]}`. -/
def exBookmark : Bookmark :=
  { id := 2, user_id := 7, url := "https://example.com/", title := "Example"
  , description := none, thumbnail := "", tags := [], folder_id := none
  , is_private := false, share_id := none }

/-- A non-default folder owning no sample bookmark. -/
def workFolder : Folder :=
  { id := 99, user_id := 7, name := "Work", is_default := false }

/-- The automatically created default folder. -/
def allFolder : Folder :=
  { id := 1, user_id := 7, name := "All Bookmarks", is_default := true }

/-- The signed-in state with an empty mirror. -/
def emptyState : AppState :=
  { bookmarks := [], folders := [], shareModal := none, urlError := ""
  , urlInput := "", showAddModal := false, selectedFolder := SelectedFolder.all
  , currentUserId := 7 }

/-- State holding one unshared bookmark. -/
def shareState : AppState :=
  { emptyState with bookmarks := [exBookmark] }

/-- State with a pending valid URL in the add-bookmark form. -/
def addState : AppState :=
  { emptyState with bookmarks := [ghBookmark], urlInput := "https://newsite.com" }

/-! ## Helper lemmas -/

/-- A list starts with itself followed by anything. -/
theorem startsWithSeq_append_self (p t : List Char) :
    startsWithSeq p (p ++ t) = true := by
  induction p with
  | nil => rfl
  | cons a q ih => simp [startsWithSeq, ih]

/-- Appending text to `https://` yields a string that starts with `http`. -/
theorem jsStartsWith_https_append (s : String) :
    jsStartsWith ("https://" ++ s) "http" = true := by
  have hdata : ("https://" ++ s).data = ['h', 't', 't', 'p'] ++ (['s', ':', '/', '/'] ++ s.data) := by
    rw [String.data_append]
    rfl
  have hp : ("http" : String).data = ['h', 't', 't', 'p'] := rfl
  rw [jsStartsWith, hdata, hp, startsWithSeq_append_self]

/-- The scheme scan fails on any remainder without a colon. -/
theorem schemeSplitGo_eq_none (acc : List Char) (cs : List Char)
    (h : ':' ∉ cs) : schemeSplitGo acc cs = none := by
  induction cs generalizing acc with
  | nil => rfl
  | cons c t ih =>
    have hc : (c == ':') = false := by
      have : c ≠ ':' := fun e => h (by simp [e])
      simp [this]
    have ht : ':' ∉ t := fun m => h (List.mem_cons_of_mem _ m)
    unfold schemeSplitGo
    rw [hc]
    by_cases hsc : isSchemeChar c = true
    · simp [hsc, ih _ ht]
    · simp [hsc]

/-- An input without a colon has no scheme. -/
theorem schemeSplit_eq_none (l : List Char) (h : ':' ∉ l) :
    schemeSplit l = none := by
  cases l with
  | nil => rfl
  | cons c cs =>
    have ht : ':' ∉ cs := fun m => h (List.mem_cons_of_mem _ m)
    unfold schemeSplit
    by_cases hs : isSchemeStartChar c = true
    · simp [hs, schemeSplitGo_eq_none _ _ ht]
    · simp [hs]

/-- The URL constructor rejects any input without a colon. -/
theorem newURL_eq_none_of_no_colon (s : String) (h : ':' ∉ s.data) :
    newURL s = none := by
  unfold newURL
  rw [schemeSplit_eq_none s.data h]

/-- A URL accepted by `isValidUrl` has a normalization. -/
theorem normalizeUrl_isSome_of_valid (s : String)
    (h : isValidUrl s = true) : (normalizeUrl s).isSome = true := by
  unfold isValidUrl at h
  unfold normalizeUrl
  cases hnew : newURL
      (if jsStartsWith s "http" then s else "https://" ++ s) with
  | none => rw [hnew] at h; simp at h
  | some u => simp

/-- Replacing the entry found by an id-keyed search and searching again
returns the replacement, provided the replacement keeps the id. -/
theorem find?_map_update (l : List Bookmark) (bid : Nat) (nb b : Bookmark)
    (hfind : l.find? (fun x => x.id == bid) = some b) (hnb : nb.id = bid) :
    (l.map (fun x => if x.id == bid then nb else x)).find?
      (fun x => x.id == bid) = some nb := by
  induction l with
  | nil => simp [List.find?] at hfind
  | cons a t ih =>
    by_cases ha : (a.id == bid) = true
    · simp [List.find?, ha, hnb]
    · have ha' : (a.id == bid) = false := by
        simp only [Bool.not_eq_true] at ha; exact ha
      rw [List.find?] at hfind
      rw [ha'] at hfind
      simp only [List.map_cons]
      rw [List.find?]
      have hmap : ((if (a.id == bid) = true then nb else a).id == bid) = false := by
        simp [ha']
      rw [hmap]
      exact ih hfind

/-- The re-filing loop completes when every per-bookmark update succeeds. -/
theorem runUpdates_fst_true (oracle : Nat → Except String Bookmark)
    (bs : List Bookmark)
    (h : ∀ b ∈ bs, ∃ r, oracle b.id = Except.ok r) :
    (runUpdates oracle bs).1 = true := by
  induction bs with
  | nil => rfl
  | cons b t ih =>
    obtain ⟨r, hr⟩ := h b (by simp)
    have ht := ih (fun x hx => h x (List.mem_cons_of_mem _ hx))
    unfold runUpdates
    rw [hr]
    simpa using ht



/-! ## Claim theorems -/

/-- C9: a failed update call (for instance a store-side constraint rejection)
leaves the mirror exactly as it was before the call — the targeted entity
keeps every field and no other entity is modified — although the update
request itself was issued. -/
theorem failed_update_leaves_mirror_unchanged (st : AppState)
    (bookmarkId : Nat) (patch : BookmarkPatch) (msg : String) :
    (handleUpdateBookmark st bookmarkId patch (Except.error msg)).1 = st ∧
    (handleUpdateBookmark st bookmarkId patch (Except.error msg)).2 =
      [RemoteCall.updateBookmark bookmarkId patch] :=
  ⟨rfl, rfl⟩

/-- C8: attempting to delete a folder marked default is rejected before the
confirmation dialog and before any remote call: the handler returns with the
state unchanged and an empty call trace, whatever the remote oracles would
answer, so the remote-delete branch is unreachable for default folders. -/
theorem default_folder_delete_rejected (st : AppState) (folderId : Nat)
    (f : Folder) (confirmDelete : Bool)
    (updateResult : Nat → Except String Bookmark)
    (deleteResult : Except String Unit)
    (hfind : st.folders.find? (fun x => x.id == folderId) = some f)
    (hdef : f.is_default = true) :
    handleDeleteFolder st folderId confirmDelete updateResult deleteResult
      = (st, []) := by
  simp [handleDeleteFolder, hfind, hdef]

/-- Witness for C8 at a concrete state holding the default folder. -/
theorem default_folder_delete_rejected_w :
    handleDeleteFolder { emptyState with folders := [allFolder] } 1 true
        (fun _ => Except.error "boom") (Except.ok ())
      = ({ emptyState with folders := [allFolder] }, []) :=
  default_folder_delete_rejected { emptyState with folders := [allFolder] } 1
    allFolder true (fun _ => Except.error "boom") (Except.ok ())
    (by decide) (by decide)

/-- C10: the scheme-presence test of the URL utilities is the literal prefix
check `startsWith('http')`, so a scheme-less input (no colon anywhere) whose
text begins with `http` receives no `https://` prefix, fails URL parsing, and
is rejected by `isValidUrl` and `normalizeUrl`, while the scheme-less
hostname `example.com`, which does not begin with `http`, is accepted. -/
theorem scheme_test_is_literal_prefix_check (s : String)
    (hstart : jsStartsWith s "http" = true) (hcolon : ':' ∉ s.data) :
    isValidUrl s = false ∧ normalizeUrl s = none ∧
    isValidUrl "example.com" = true ∧
    normalizeUrl "example.com" = some "https://example.com/" := by
  have hn : newURL s = none := newURL_eq_none_of_no_colon s hcolon
  refine ⟨?_, ?_, by decide, by decide⟩
  · simp [isValidUrl, hstart, hn]
  · simp [normalizeUrl, hstart, hn]

/-- Witness for C10 at the scheme-less host `httpbin.org`. -/
theorem scheme_test_is_literal_prefix_check_w :
    isValidUrl "httpbin.org" = false ∧ normalizeUrl "httpbin.org" = none ∧
    isValidUrl "example.com" = true ∧
    normalizeUrl "example.com" = some "https://example.com/" :=
  scheme_test_is_literal_prefix_check "httpbin.org" (by decide) (by decide)

/-- C3 counterexample: `normalizeUrl` does not trim its input — a leading
space makes it fail where trimming first would succeed — and the scheme-less
input `httpbin.org`, differing from the valid `https://httpbin.org` only in
the missing scheme, does not normalize to the same canonical string. -/
theorem normalize_claim_counterexample :
    normalizeUrl " example.com" = none ∧
    normalizeUrl "example.com" = some "https://example.com/" ∧
    normalizeUrl "httpbin.org" = none ∧
    normalizeUrl "https://httpbin.org" = some "https://httpbin.org/" :=
  ⟨by decide, by decide, by decide, by decide⟩

/-- C3 amended: `normalizeUrl` performs no trimming and prefixes `https://`
exactly when the raw input does not literally start with `http` — an input
not beginning with `http` is parsed with the prefix attached, while an input
beginning with `http` is parsed verbatim, the serialized URL being returned
in both cases (null on parse failure); consequently for every input not
beginning with `http`, normalizing it and normalizing the same text with
`https://` prefixed produce identical results. -/
theorem normalize_missing_scheme_agrees (s t : String)
    (hs : jsStartsWith s "http" = false)
    (ht : jsStartsWith t "http" = true) :
    normalizeUrl s = normalizeUrl ("https://" ++ s) ∧
    normalizeUrl s = Option.map JsUrl.href (newURL ("https://" ++ s)) ∧
    normalizeUrl t = Option.map JsUrl.href (newURL t) := by
  have h2 := jsStartsWith_https_append s
  refine ⟨?_, ?_, ?_⟩
  · simp [normalizeUrl, hs, h2]
  · cases hnew : newURL ("https://" ++ s) <;> simp [normalizeUrl, hs, hnew]
  · cases hnew : newURL t <;> simp [normalizeUrl, ht, hnew]

/-- Witness for the amended C3 at `example.com` (prefixed and agreeing with
its prefixed form) and `httpbin.org` (parsed verbatim, no prefix added). -/
theorem normalize_missing_scheme_agrees_w :
    normalizeUrl "example.com" = normalizeUrl ("https://" ++ "example.com") ∧
    normalizeUrl "httpbin.org" = Option.map JsUrl.href (newURL "httpbin.org") :=
  ⟨(normalize_missing_scheme_agrees "example.com" "httpbin.org"
      (by decide) (by decide)).1,
   (normalize_missing_scheme_agrees "example.com" "httpbin.org"
      (by decide) (by decide)).2.2⟩

/-- C1 is violated by the code: when persisting the freshly generated share
token fails, `handleUpdateBookmark` swallows the error, so
`handleShareBookmark` still sets the share-modal state to the bookmark
carrying the generated token — the share link is displayed — even though the
mirror is left without a `share_id` and the single update call failed. -/
theorem share_failure_still_displays_token :
    (handleShareBookmark shareState exBookmark "tok123"
        (Except.error "network error")).1.shareModal
      = some { exBookmark with share_id := some "tok123" } ∧
    (handleShareBookmark shareState exBookmark "tok123"
        (Except.error "network error")).1.bookmarks = [exBookmark] ∧
    exBookmark.share_id = none ∧
    (handleShareBookmark shareState exBookmark "tok123"
        (Except.error "network error")).2
      = [RemoteCall.updateBookmark 2 (sharePatch "tok123")] :=
  ⟨by decide, by decide, by decide, by decide⟩

/-- C2 counterexample: starting from an empty mirror, a successful folders
fetch followed by a failing bookmarks fetch surfaces the recoverable load
error, yet leaves the folder list populated — partial state (folders loaded,
bookmarks not) is exposed, so the mirror is not left empty. -/
theorem load_partial_state_counterexample :
    (loadUserData emptyState (Except.ok [allFolder]) (Except.error "unused")
        (Except.error "network error")).2 = true ∧
    (loadUserData emptyState (Except.ok [allFolder]) (Except.error "unused")
        (Except.error "network error")).1.folders = [allFolder] ∧
    (loadUserData emptyState (Except.ok [allFolder]) (Except.error "unused")
        (Except.error "network error")).1.bookmarks = [] :=
  ⟨by decide, by decide, by decide⟩

/-- C2 amended: on a failed initial load the recoverable error is surfaced
and the bookmarks list is never modified; when the failure happens already in
the folders fetch, or in the default-folder creation taken when no folder
exists yet, the whole mirror is left unchanged (hence empty when initially
empty); only a bookmarks-fetch failure after a successful folders fetch can
leave folders populated without bookmarks. -/
theorem load_failure_bookmarks_unchanged (st : AppState)
    (foldersResult : Except String (List Folder))
    (createDefaultResult : Except String Folder)
    (bookmarksResult : Except String (List Bookmark))
    (h : (loadUserData st foldersResult createDefaultResult
        bookmarksResult).2 = true) :
    (loadUserData st foldersResult createDefaultResult
        bookmarksResult).1.bookmarks = st.bookmarks ∧
    (∀ m, foldersResult = Except.error m →
      (loadUserData st foldersResult createDefaultResult
        bookmarksResult).1 = st) ∧
    (∀ fd m, foldersResult = Except.ok fd → fd.isEmpty = true →
      createDefaultResult = Except.error m →
      (loadUserData st foldersResult createDefaultResult
        bookmarksResult).1 = st) := by
  cases foldersResult with
  | error m => simp [loadUserData]
  | ok fd =>
    cases createDefaultResult <;> cases bookmarksResult <;>
      by_cases hfd : fd.isEmpty = true <;>
      simp_all [loadUserData]

/-- Witness for the amended C2: a failing bookmarks fetch leaves the
(initially empty) bookmarks list unchanged, and a failing default-folder
creation leaves the whole state unchanged. -/
theorem load_failure_bookmarks_unchanged_w :
    (loadUserData emptyState (Except.ok [allFolder]) (Except.error "unused")
        (Except.error "network error")).1.bookmarks = emptyState.bookmarks ∧
    (loadUserData emptyState (Except.ok []) (Except.error "create failed")
        (Except.ok [])).1 = emptyState :=
  ⟨(load_failure_bookmarks_unchanged emptyState (Except.ok [allFolder])
      (Except.error "unused") (Except.error "network error") (by decide)).1,
   (load_failure_bookmarks_unchanged emptyState (Except.ok [])
      (Except.error "create failed") (Except.ok []) (by decide)).2.2
     [] "create failed" rfl (by decide) rfl⟩

/-- C4: with a valid pending URL, a positive duplicate pre-check rejects the
submission with the duplicate error before any create call is issued, leaving
the mirror untouched; and when the pre-check reports no duplicate (the raced
case) but the store rejects the insert with a uniqueness-constraint message
containing `duplicate`, the same error text is surfaced and the mirror is
again untouched. -/
theorem duplicate_guard_and_store_rejection (st : AppState) (msg : String)
    (createResult : Except String Bookmark)
    (hne : (jsTrim st.urlInput).isEmpty = false)
    (hvalid : isValidUrl st.urlInput = true)
    (hmsg : jsIncludes msg "duplicate" = true) :
    ((handleAddBookmark st (Except.ok true) createResult).1.urlError
        = "This bookmark already exists" ∧
     (handleAddBookmark st (Except.ok true) createResult).1.bookmarks
        = st.bookmarks ∧
     ∀ c ∈ (handleAddBookmark st (Except.ok true) createResult).2,
        isCreateCall c = false) ∧
    ((handleAddBookmark st (Except.ok false) (Except.error msg)).1.urlError
        = "This bookmark already exists" ∧
     (handleAddBookmark st (Except.ok false) (Except.error msg)).1.bookmarks
        = st.bookmarks ∧
     (handleAddBookmark st (Except.ok false) (Except.error msg)).1.folders
        = st.folders) := by
  obtain ⟨u, hu⟩ :=
    Option.isSome_iff_exists.mp (normalizeUrl_isSome_of_valid _ hvalid)
  refine ⟨⟨?_, ?_, ?_⟩, ⟨?_, ?_, ?_⟩⟩ <;>
    simp [handleAddBookmark, hne, hvalid, hu, hmsg, isCreateCall]

/-- Witness for C4 at a concrete state with the pending URL
`https://newsite.com` and a constraint-violation message. -/
theorem duplicate_guard_and_store_rejection_w :
    (handleAddBookmark addState (Except.ok true)
        (Except.error "x")).1.urlError = "This bookmark already exists" ∧
    (handleAddBookmark addState (Except.ok false)
        (Except.error "duplicate key value violates unique constraint")).1.bookmarks
      = addState.bookmarks :=
  ⟨(duplicate_guard_and_store_rejection addState
      "duplicate key value violates unique constraint" (Except.error "x")
      (by decide) (by decide) (by decide)).1.1,
   (duplicate_guard_and_store_rejection addState
      "duplicate key value violates unique constraint" (Except.error "x")
      (by decide) (by decide) (by decide)).2.2.1⟩

/-- The state computed by a folder delete whose guard passes, whose re-filing
loop completes, and whose remote delete succeeds. -/
theorem handleDeleteFolder_success_state (st : AppState) (folderId : Nat)
    (updateResult : Nat → Except String Bookmark)
    (hguard : (match st.folders.find? (fun x => x.id == folderId) with
      | some g => g.is_default
      | none => false) = false)
    (hloop : (runUpdates updateResult
      (st.bookmarks.filter (fun b => b.folder_id == some folderId))).1 = true) :
    (handleDeleteFolder st folderId true updateResult
        (Except.ok ())).1.bookmarks
      = st.bookmarks.map (fun b =>
          if b.folder_id == some folderId then { b with folder_id := none } else b) ∧
    (handleDeleteFolder st folderId true updateResult
        (Except.ok ())).1.folders
      = st.folders.filter (fun x => x.id != folderId) := by
  by_cases hsel : st.selectedFolder = SelectedFolder.folder folderId <;>
    simp [handleDeleteFolder, hguard, hloop, hsel]

/-- C5: successfully deleting a non-default folder rewrites to null the
`folder_id` of exactly the bookmarks that referenced it, keeps all other
bookmarks untouched, removes the folder from the folder list, and leaves the
total bookmark count unchanged — no bookmark is cascade-deleted. -/
theorem delete_folder_reassigns_bookmarks (st : AppState) (folderId : Nat)
    (f : Folder) (updateResult : Nat → Except String Bookmark)
    (hfind : st.folders.find? (fun x => x.id == folderId) = some f)
    (hdef : f.is_default = false)
    (hok : ∀ b ∈ st.bookmarks, ∃ r, updateResult b.id = Except.ok r) :
    (∀ b ∈ st.bookmarks, b.folder_id = some folderId →
      { b with folder_id := none } ∈
        (handleDeleteFolder st folderId true updateResult
          (Except.ok ())).1.bookmarks) ∧
    (∀ b ∈ st.bookmarks, b.folder_id ≠ some folderId →
      b ∈ (handleDeleteFolder st folderId true updateResult
          (Except.ok ())).1.bookmarks) ∧
    (∀ b ∈ (handleDeleteFolder st folderId true updateResult
        (Except.ok ())).1.bookmarks, b.folder_id ≠ some folderId) ∧
    (∀ g ∈ (handleDeleteFolder st folderId true updateResult
        (Except.ok ())).1.folders, g.id ≠ folderId) ∧
    (handleDeleteFolder st folderId true updateResult
        (Except.ok ())).1.bookmarks.length = st.bookmarks.length := by
  have hloop : (runUpdates updateResult
      (st.bookmarks.filter (fun b => b.folder_id == some folderId))).1 = true := by
    apply runUpdates_fst_true
    intro b hb
    exact hok b (List.mem_filter.mp hb).1
  have hguard : (match st.folders.find? (fun x => x.id == folderId) with
      | some g => g.is_default
      | none => false) = false := by
    rw [hfind]; exact hdef
  obtain ⟨hbk, hfo⟩ :=
    handleDeleteFolder_success_state st folderId updateResult hguard hloop
  rw [hbk, hfo]
  refine ⟨?_, ?_, ?_, ?_, ?_⟩
  · intro b hb hbf
    simp only [List.mem_map]
    exact ⟨b, hb, by simp [hbf]⟩
  · intro b hb hbf
    simp only [List.mem_map]
    exact ⟨b, hb, by simp [hbf]⟩
  · intro b hb
    simp only [List.mem_map] at hb
    obtain ⟨a, ha, rfl⟩ := hb
    by_cases haf : a.folder_id = some folderId <;> simp [haf]
  · intro g hg
    have := (List.mem_filter.mp hg).2
    simpa using this
  · simp

/-- Two sample bookmarks filed in the non-default folder 99. -/
def ghInWork : Bookmark := { ghBookmark with folder_id := some 99 }

/-- Second sample bookmark filed in the non-default folder 99. -/
def exInWork : Bookmark := { exBookmark with folder_id := some 99 }

/-- State with the default folder, a work folder, and two bookmarks filed in
the work folder. -/
def folderState : AppState :=
  { emptyState with
      folders := [allFolder, workFolder],
      bookmarks := [ghInWork, exInWork] }

/-- Witness for C5: deleting the work folder from `folderState` keeps both
bookmarks (count 2) and leaves no folder with id 99. -/
theorem delete_folder_reassigns_bookmarks_w :
    (handleDeleteFolder folderState 99 true (fun _ => Except.ok exBookmark)
        (Except.ok ())).1.bookmarks.length = folderState.bookmarks.length ∧
    ∀ g ∈ (handleDeleteFolder folderState 99 true (fun _ => Except.ok exBookmark)
        (Except.ok ())).1.folders, g.id ≠ 99 :=
  ⟨(delete_folder_reassigns_bookmarks folderState 99 workFolder
      (fun _ => Except.ok exBookmark) (by decide) (by decide)
      (fun b _ => ⟨exBookmark, rfl⟩)).2.2.2.2,
   (delete_folder_reassigns_bookmarks folderState 99 workFolder
      (fun _ => Except.ok exBookmark) (by decide) (by decide)
      (fun b _ => ⟨exBookmark, rfl⟩)).2.2.2.1⟩

/-- C6: sharing is idempotent. On a mirror bookmark without a token, the
first share issues exactly one update carrying the generated token and opens
the modal on that token; the mirror then holds the server's row with the
token, and a second share on that row issues no remote call at all (whatever
a remote oracle would answer), opens the modal on the same stored token, and
leaves the mirror — hence the assigned `share_id` — unchanged. -/
theorem share_twice_idempotent (st : AppState) (b server : Bookmark)
    (bid : Nat) (tok1 tok2 : String) (remote2 : Except String Bookmark)
    (hfind : st.bookmarks.find? (fun x => x.id == bid) = some b)
    (hb : isFalsyStr b.share_id = true)
    (hsid : server.id = bid)
    (hstok : server.share_id = some tok1)
    (htok : tok1.isEmpty = false) :
    (handleShareBookmark st b tok1 (Except.ok server)).1.shareModal
      = some { b with share_id := some tok1 } ∧
    (handleShareBookmark st b tok1 (Except.ok server)).1.bookmarks.find?
      (fun x => x.id == bid) = some server ∧
    (handleShareBookmark st b tok1 (Except.ok server)).2
      = [RemoteCall.updateBookmark b.id (sharePatch tok1)] ∧
    (handleShareBookmark (handleShareBookmark st b tok1 (Except.ok server)).1
        server tok2 remote2).1.shareModal = some server ∧
    (handleShareBookmark (handleShareBookmark st b tok1 (Except.ok server)).1
        server tok2 remote2).2 = [] ∧
    (handleShareBookmark (handleShareBookmark st b tok1 (Except.ok server)).1
        server tok2 remote2).1.bookmarks
      = (handleShareBookmark st b tok1 (Except.ok server)).1.bookmarks := by
  have hbid : b.id = bid := by
    have h1 := List.find?_some hfind
    simpa using h1
  have hfalse : isFalsyStr server.share_id = false := by
    rw [hstok]
    simpa [isFalsyStr] using htok
  refine ⟨?_, ?_, ?_, ?_, ?_, ?_⟩
  · simp [handleShareBookmark, hb, handleUpdateBookmark]
  · simp only [handleShareBookmark, hb, if_true, handleUpdateBookmark]
    rw [hbid]
    exact find?_map_update st.bookmarks bid server b hfind hsid
  · simp [handleShareBookmark, hb, handleUpdateBookmark]
  · simp [handleShareBookmark, hb, hfalse, handleUpdateBookmark]
  · simp [handleShareBookmark, hb, hfalse, handleUpdateBookmark]
  · simp [handleShareBookmark, hb, hfalse, handleUpdateBookmark]

/-- Witness for C6: sharing the sample bookmark twice with token `tokenabc`
issues exactly one update call overall. -/
theorem share_twice_idempotent_w :
    (handleShareBookmark shareState exBookmark "tokenabc"
        (Except.ok { exBookmark with share_id := some "tokenabc" })).2
      = [RemoteCall.updateBookmark 2 (sharePatch "tokenabc")] ∧
    (handleShareBookmark
        (handleShareBookmark shareState exBookmark "tokenabc"
          (Except.ok { exBookmark with share_id := some "tokenabc" })).1
        { exBookmark with share_id := some "tokenabc" } "zzz"
        (Except.error "ignored")).2 = [] :=
  ⟨(share_twice_idempotent shareState exBookmark
      { exBookmark with share_id := some "tokenabc" } 2 "tokenabc" "zzz"
      (Except.error "ignored") (by decide) (by decide) (by decide)
      (by decide) (by decide)).2.2.1,
   (share_twice_idempotent shareState exBookmark
      { exBookmark with share_id := some "tokenabc" } 2 "tokenabc" "zzz"
      (Except.error "ignored") (by decide) (by decide) (by decide)
      (by decide) (by decide)).2.2.2.2.1⟩

/-- C7: the filter/search evaluator is a pure function that applies no folder
filter under the `'all'` sentinel (or a selected default folder), applies no
text filter for an empty or whitespace-only query (any whitespace-only query
behaves exactly like the empty one, under every folder selection), and
otherwise keeps exactly the bookmarks
whose lowercase title, description (when present), url, or some lowercase tag
contains the lowercase query, preserving input order; on the spec's sample
mirror, query `git` keeps only the GitHub bookmark, the empty query keeps
both in order, and a folder filter matching neither yields the empty list. -/
theorem filter_search_evaluator_spec (bs : List Bookmark) (fs : List Folder)
    (sel : SelectedFolder) (q : String) (fid : Nat) (f : Folder) (q2 : String)
    (hq : (jsTrim q).isEmpty = false)
    (hf : fs.find? (fun x => x.id == fid) = some f)
    (hdef : f.is_default = true)
    (hq2 : (jsTrim q2).isEmpty = true) :
    (∀ b, b ∈ filteredBookmarks bs fs SelectedFolder.all q ↔
        b ∈ bs ∧ matchesQuery (jsToLower q) b = true) ∧
    List.Sublist (filteredBookmarks bs fs sel q) bs ∧
    filteredBookmarks bs fs SelectedFolder.all "" = bs ∧
    filteredBookmarks bs fs (SelectedFolder.folder fid) q
      = filteredBookmarks bs fs SelectedFolder.all q ∧
    filteredBookmarks [ghBookmark, exBookmark] [workFolder]
      SelectedFolder.all "git" = [ghBookmark] ∧
    filteredBookmarks [ghBookmark, exBookmark] [workFolder]
      SelectedFolder.all "" = [ghBookmark, exBookmark] ∧
    filteredBookmarks [ghBookmark, exBookmark] [workFolder]
      (SelectedFolder.folder 99) "" = [] ∧
    filteredBookmarks bs fs sel q2 = filteredBookmarks bs fs sel "" ∧
    filteredBookmarks bs fs SelectedFolder.all q2 = bs := by
  refine ⟨?_, ?_, ?_, ?_, by decide, by decide, by decide, ?_, ?_⟩
  · intro b
    simp [filteredBookmarks, hq, List.mem_filter]
  · simp only [filteredBookmarks]
    split
    · split
      · exact List.Sublist.trans (List.filter_sublist _) (List.filter_sublist _)
      · exact List.filter_sublist _
    · split
      · exact List.filter_sublist _
      · exact List.Sublist.refl _
  · have hempty : (jsTrim "").isEmpty = true := by decide
    simp [filteredBookmarks, hempty]
  · simp [filteredBookmarks, hf, hdef]
  · have hempty : (jsTrim "").isEmpty = true := by decide
    simp [filteredBookmarks, hq2, hempty]
  · simp [filteredBookmarks, hq2]

/-- Witness for C7: with the default folder selected, filtering the sample
mirror for `git` coincides with the all-bookmarks view, and a whitespace-only
query keeps both sample bookmarks. -/
theorem filter_search_evaluator_spec_w :
    filteredBookmarks [ghBookmark, exBookmark] [allFolder]
        (SelectedFolder.folder 1) "git"
      = filteredBookmarks [ghBookmark, exBookmark] [allFolder]
        SelectedFolder.all "git" ∧
    filteredBookmarks [ghBookmark, exBookmark] [allFolder]
        SelectedFolder.all "   " = [ghBookmark, exBookmark] :=
  ⟨(filter_search_evaluator_spec [ghBookmark, exBookmark] [allFolder]
      SelectedFolder.all "git" 1 allFolder "   " (by decide) (by decide)
      (by decide) (by decide)).2.2.2.1,
   (filter_search_evaluator_spec [ghBookmark, exBookmark] [allFolder]
      SelectedFolder.all "git" 1 allFolder "   " (by decide) (by decide)
      (by decide) (by decide)).2.2.2.2.2.2.2.2⟩
